import Mathlib

/-!
Verification of the YepCode executor adapter
(`src/autogen_ext_yepcode/_yepcode_executor.py`).

The adapter is shallowly embedded: the remote execution service is modelled
as an oracle assigning to each submission (numbered in order) a behaviour —
either a raised fault or a completed `RemoteExecution` record — and
`execute_code_blocks` is translated statement by statement from the Python
source.  Machine-level concerns (threads, the actual HTTP client) do not
affect the values computed and are not modelled.
-/

namespace YepCode

/-- Python truthiness of an `Optional[str]`-valued field: `None` and the
empty string are falsy, every other string is truthy. -/
def pyTruthy : Option String → Bool
  | none => false
  | some s => s != ""

/-- `CodeBlock` from `autogen_core.code_executor`: a unit of code tagged
with a free-form language label. -/
structure CodeBlock where
  code : String
  language : String
deriving Repr, DecidableEq

/-- One entry of `execution.logs` of the remote client library. -/
structure LogEntry where
  timestamp : String
  level : String
  message : String
deriving Repr, DecidableEq

/-- A completed `RemoteExecution` as exposed by the remote client library:
`id`, optional `error`, optional rendered `return_value`, and `logs`.
`return_value` is arbitrary in Python; we model its string rendering, with
`none` standing for a falsy/absent value (`if execution.return_value:`). -/
structure RemoteExecution where
  id : String
  error : Option String
  return_value : Option String
  logs : List LogEntry
deriving Repr, DecidableEq

/-- The behaviour of the remote service for one submission:
`run_fault` — `self._runner.run` raises (no execution was created);
`wait_fault` — `run` returned execution `e` but `wait_for_done` raises;
`done` — `run` returned execution `e` and `wait_for_done` returns. -/
inductive RemoteBehavior where
  | run_fault (msg : String)
  | wait_fault (e : RemoteExecution) (msg : String)
  | done (e : RemoteExecution)
deriving Repr, DecidableEq

/-- `YepCodeCodeResult`: exit code, aggregated output and the optional
execution id (`None` when no id is attached). -/
structure YepCodeCodeResult where
  exit_code : Int
  output : String
  execution_id : Option String
deriving Repr, DecidableEq

/-- `YepCodeCodeExecutorConfig`: the plain serializable configuration
record (pydantic model) with exactly these four fields. -/
structure YepCodeCodeExecutorConfig where
  api_token : Option String
  timeout : Int
  remove_on_done : Bool
  sync_execution : Bool
deriving Repr, DecidableEq

/-- The adapter's own state after construction: the resolved token and the
three options, plus the runtime fields `_started` and `_runner` (the client
handle, modelled only by its presence). -/
structure YepCodeCodeExecutor where
  api_token : String
  timeout : Int
  remove_on_done : Bool
  sync_execution : Bool
  started : Bool
  runner : Option Unit
deriving Repr, DecidableEq

/-- The cancellation token passed to `execute_code_blocks`, modelled by its
observable cancelled flag. -/
structure CancellationToken where
  cancelled : Bool
deriving Repr, DecidableEq

/-- `SUPPORTED_LANGUAGES` class variable. -/
def SUPPORTED_LANGUAGES : List String := ["python", "javascript"]

/-- Error message raised for `timeout < 1` in `__init__`. -/
def timeoutErrorMsg : String := "Timeout must be greater than or equal to 1."

/-- Error message raised in `__init__` when no API token can be resolved. -/
def tokenErrorMsg : String :=
  "YepCode API token is required. Provide it via api_token parameter or YEPCODE_API_TOKEN environment variable."

/-- `YepCodeCodeExecutor.__init__`, with the `YEPCODE_API_TOKEN` environment
variable passed explicitly as `env_token`.  `api_token or os.getenv(...)`
is Python's short-circuit `or` on truthiness; `if not self._api_token`
rejects a falsy resolved token. -/
def init (api_token : Option String) (timeout : Int)
    (remove_on_done : Bool) (sync_execution : Bool)
    (env_token : Option String) : Except String YepCodeCodeExecutor :=
  if timeout < 1 then
    .error timeoutErrorMsg
  else
    let resolved := if pyTruthy api_token then api_token else env_token
    if !(pyTruthy resolved) then
      .error tokenErrorMsg
    else
      .ok { api_token := resolved.getD ""
            timeout := timeout
            remove_on_done := remove_on_done
            sync_execution := sync_execution
            started := false
            runner := none }

/-- Python's `str.lower()`, written as a character-by-character map over
the string's character list so that it evaluates definitionally. -/
def strLower (s : String) : String :=
  ⟨s.data.map Char.toLower⟩

/-- `_normalize_language`: lowercase, map aliases of the two supported
languages to their canonical labels, pass anything else through. -/
def normalize_language (language : String) : String :=
  let lang := strLower language
  if lang = "js" ∨ lang = "javascript" then "javascript"
  else if lang = "python" ∨ lang = "py" then "python"
  else lang

/-- One formatted log line: `"<timestamp> - <level>: <message>"`. -/
def formatLog (l : LogEntry) : String :=
  l.timestamp ++ " - " ++ l.level ++ ": " ++ l.message

/-- `logs_output` as computed in the sync branch: empty when there are no
logs, otherwise a header followed by the newline-joined formatted lines. -/
def logsOutput (logs : List LogEntry) : String :=
  if logs.isEmpty then ""
  else "\n\nExecution logs:\n" ++ String.intercalate "\n" (logs.map formatLog)

/-- The output message of the unsupported-language early return. -/
def unsupportedMsg (language : String) : String :=
  "Unsupported language: " ++ language ++ ". Supported languages: " ++
    String.intercalate ", " SUPPORTED_LANGUAGES

/-- The `for code_block in code_blocks:` loop of `execute_code_blocks`.
`n` counts the submissions made so far and indexes the oracle `behaviors`;
`outputs` and `last_execution_id` are the loop's accumulators.  Returns the
result together with the total number of submissions to the remote
service. -/
def execLoop (ex : YepCodeCodeExecutor) (behaviors : Nat → RemoteBehavior) :
    List CodeBlock → Nat → List String → Option String →
    YepCodeCodeResult × Nat
  | [], n, outputs, last_execution_id =>
      ({ exit_code := 0
         output := String.intercalate "\n===\n" outputs
         execution_id := last_execution_id }, n)
  | code_block :: rest, n, outputs, last_execution_id =>
      let lang := normalize_language code_block.language
      if lang = "python" ∨ lang = "javascript" then
        match behaviors n with
        | .run_fault msg =>
            ({ exit_code := 1
               output := "Error executing code: " ++ msg
               execution_id := last_execution_id }, n + 1)
        | .wait_fault e msg =>
            if ex.sync_execution then
              ({ exit_code := 1
                 output := "Error executing code: " ++ msg
                 execution_id := some e.id }, n + 1)
            else
              execLoop ex behaviors rest (n + 1)
                (outputs ++ ["Execution started with ID: " ++ e.id]) (some e.id)
        | .done e =>
            if ex.sync_execution then
              let logs_output := logsOutput e.logs
              if pyTruthy e.error then
                ({ exit_code := 1
                   output := "Execution failed with error:\n" ++
                     e.error.getD "" ++ logs_output
                   execution_id := some e.id }, n + 1)
              else
                let output :=
                  (if pyTruthy e.return_value then
                    "Execution result:\n" ++ e.return_value.getD ""
                  else "") ++ logs_output
                execLoop ex behaviors rest (n + 1) (outputs ++ [output]) (some e.id)
            else
              execLoop ex behaviors rest (n + 1)
                (outputs ++ ["Execution started with ID: " ++ e.id]) (some e.id)
      else
        ({ exit_code := 1
           output := unsupportedMsg code_block.language
           execution_id := none }, n)

/-- `execute_code_blocks`: the lifecycle precondition, the empty-input
early return, then the loop.  The cancellation token is taken exactly as
the source takes it; the source's loop body never reads it.  The second
component counts submissions to the remote service (`0` on the paths that
never contact it). -/
def execute_code_blocks (ex : YepCodeCodeExecutor)
    (code_blocks : List CodeBlock) (cancellation_token : CancellationToken)
    (behaviors : Nat → RemoteBehavior) :
    Except String YepCodeCodeResult × Nat :=
  if !ex.started then
    (.error "Executor must be started before executing code blocks.", 0)
  else if code_blocks.isEmpty then
    (.ok { exit_code := 0, output := "", execution_id := none }, 0)
  else
    let r := execLoop ex behaviors code_blocks 0 [] none
    (.ok r.1, r.2)

/-- `_to_config`: serialize the four configuration fields; the runtime
fields (`_started`, `_runner`) are not read. -/
def to_config (ex : YepCodeCodeExecutor) : YepCodeCodeExecutorConfig :=
  { api_token := some ex.api_token
    timeout := ex.timeout
    remove_on_done := ex.remove_on_done
    sync_execution := ex.sync_execution }

/-- `_from_config`: construct a fresh adapter through `__init__` from the
record's fields (the environment variable still participates in token
resolution, as in the source). -/
def from_config (config : YepCodeCodeExecutorConfig)
    (env_token : Option String) : Except String YepCodeCodeExecutor :=
  init config.api_token config.timeout config.remove_on_done
    config.sync_execution env_token

/-- The support check of the loop: the negation of
`lang not in ["python", "javascript"]` after normalization. -/
def supportedCodeBlock (b : CodeBlock) : Prop :=
  normalize_language b.language = "python" ∨
    normalize_language b.language = "javascript"

instance (b : CodeBlock) : Decidable (supportedCodeBlock b) := by
  unfold supportedCodeBlock; infer_instance

/-- The per-block output text built in the sync branch for an execution
that completed without error (lines 208–215 of the source). -/
def blockOutput (e : RemoteExecution) : String :=
  (if pyTruthy e.return_value then
    "Execution result:\n" ++ e.return_value.getD ""
  else "") ++ logsOutput e.logs

/-- A started executor with default options, used as a concrete fixture. -/
def exStarted : YepCodeCodeExecutor :=
  { api_token := "tok", timeout := 60, remove_on_done := false,
    sync_execution := true, started := true, runner := some () }

/-- A freshly constructed (not yet started) executor fixture. -/
def exStopped : YepCodeCodeExecutor :=
  { api_token := "tok", timeout := 60, remove_on_done := false,
    sync_execution := true, started := false, runner := none }

/-- Two python blocks, used as a concrete fixture. -/
def twoPyBlocks : List CodeBlock :=
  [{ code := "print(1)", language := "python" },
   { code := "print(2)", language := "python" }]

/-- Remote behaviour fixture: the first submission completes as execution
"e1" returning "1", every later one as "e2" returning "2", no errors. -/
def behsTwoOk : Nat → RemoteBehavior := fun n =>
  if n = 0 then
    .done { id := "e1", error := none, return_value := some "1", logs := [] }
  else
    .done { id := "e2", error := none, return_value := some "2", logs := [] }

theorem init_timeout_error (tok : Option String) (t : Int) (r s : Bool)
    (env : Option String) (ht : t < 1) :
    init tok t r s env = .error timeoutErrorMsg := by
  simp [init, ht]

theorem init_ok_explicit (a : String) (t : Int) (r s : Bool)
    (env : Option String) (ht : 1 ≤ t) (ha : a ≠ "") :
    init (some a) t r s env =
      .ok { api_token := a, timeout := t, remove_on_done := r,
            sync_execution := s, started := false, runner := none } := by
  have h1 : ¬ t < 1 := by omega
  simp [init, pyTruthy, h1, ha]

theorem init_ok_env (tok : Option String) (e : String) (t : Int) (r s : Bool)
    (ht : 1 ≤ t) (htok : pyTruthy tok = false) (he : e ≠ "") :
    init tok t r s (some e) =
      .ok { api_token := e, timeout := t, remove_on_done := r,
            sync_execution := s, started := false, runner := none } := by
  have h1 : ¬ t < 1 := by omega
  simp only [init, if_neg h1, htok]
  simp [pyTruthy, he]

theorem init_token_error (tok env : Option String) (t : Int) (r s : Bool)
    (ht : 1 ≤ t) (htok : pyTruthy tok = false) (henv : pyTruthy env = false) :
    init tok t r s env = .error tokenErrorMsg := by
  have h1 : ¬ t < 1 := by omega
  simp only [init, if_neg h1, htok]
  simp [henv]

theorem execLoop_nil (ex : YepCodeCodeExecutor) (behaviors : Nat → RemoteBehavior)
    (n : Nat) (outputs : List String) (last : Option String) :
    execLoop ex behaviors [] n outputs last =
      ({ exit_code := 0, output := String.intercalate "\n===\n" outputs,
         execution_id := last }, n) := rfl

theorem execute_code_blocks_nonempty (ex : YepCodeCodeExecutor)
    (blocks : List CodeBlock) (tok : CancellationToken)
    (behaviors : Nat → RemoteBehavior)
    (h : ex.started = true) (hne : blocks.isEmpty = false) :
    execute_code_blocks ex blocks tok behaviors =
      (.ok (execLoop ex behaviors blocks 0 [] none).1,
       (execLoop ex behaviors blocks 0 [] none).2) := by
  simp [execute_code_blocks, h, hne]

theorem execLoop_cons_unsupported (ex : YepCodeCodeExecutor)
    (behaviors : Nat → RemoteBehavior) (b : CodeBlock) (rest : List CodeBlock)
    (n : Nat) (outputs : List String) (last : Option String)
    (hb : ¬ supportedCodeBlock b) :
    execLoop ex behaviors (b :: rest) n outputs last =
      ({ exit_code := 1, output := unsupportedMsg b.language,
         execution_id := none }, n) := by
  unfold supportedCodeBlock at hb
  simp only [execLoop]
  rw [if_neg hb]

theorem execLoop_cons_done_ok (ex : YepCodeCodeExecutor)
    (behaviors : Nat → RemoteBehavior) (b : CodeBlock) (rest : List CodeBlock)
    (n : Nat) (outputs : List String) (last : Option String) (e : RemoteExecution)
    (hsup : supportedCodeBlock b) (hb : behaviors n = .done e)
    (hsync : ex.sync_execution = true) (herr : pyTruthy e.error = false) :
    execLoop ex behaviors (b :: rest) n outputs last =
      execLoop ex behaviors rest (n + 1) (outputs ++ [blockOutput e]) (some e.id) := by
  unfold supportedCodeBlock at hsup
  simp only [execLoop]
  rw [if_pos hsup, hb]
  simp [hsync, herr, blockOutput]

theorem execLoop_cons_done_error (ex : YepCodeCodeExecutor)
    (behaviors : Nat → RemoteBehavior) (b : CodeBlock) (rest : List CodeBlock)
    (n : Nat) (outputs : List String) (last : Option String) (e : RemoteExecution)
    (hsup : supportedCodeBlock b) (hb : behaviors n = .done e)
    (hsync : ex.sync_execution = true) (herr : pyTruthy e.error = true) :
    execLoop ex behaviors (b :: rest) n outputs last =
      ({ exit_code := 1,
         output := "Execution failed with error:\n" ++ e.error.getD "" ++
           logsOutput e.logs,
         execution_id := some e.id }, n + 1) := by
  unfold supportedCodeBlock at hsup
  simp only [execLoop]
  rw [if_pos hsup, hb]
  simp [hsync, herr]

theorem execLoop_cons_run_fault (ex : YepCodeCodeExecutor)
    (behaviors : Nat → RemoteBehavior) (b : CodeBlock) (rest : List CodeBlock)
    (n : Nat) (outputs : List String) (last : Option String) (msg : String)
    (hsup : supportedCodeBlock b) (hb : behaviors n = .run_fault msg) :
    execLoop ex behaviors (b :: rest) n outputs last =
      ({ exit_code := 1, output := "Error executing code: " ++ msg,
         execution_id := last }, n + 1) := by
  unfold supportedCodeBlock at hsup
  simp only [execLoop]
  rw [if_pos hsup, hb]

theorem execLoop_cons_wait_fault (ex : YepCodeCodeExecutor)
    (behaviors : Nat → RemoteBehavior) (b : CodeBlock) (rest : List CodeBlock)
    (n : Nat) (outputs : List String) (last : Option String)
    (e : RemoteExecution) (msg : String)
    (hsup : supportedCodeBlock b) (hb : behaviors n = .wait_fault e msg)
    (hsync : ex.sync_execution = true) :
    execLoop ex behaviors (b :: rest) n outputs last =
      ({ exit_code := 1, output := "Error executing code: " ++ msg,
         execution_id := some e.id }, n + 1) := by
  unfold supportedCodeBlock at hsup
  simp only [execLoop]
  rw [if_pos hsup, hb]
  simp [hsync]

/-- Processing a prefix of supported blocks whose executions all complete
without error appends their outputs, advances the submission counter, and
updates the last execution id. -/
theorem execLoop_append (ex : YepCodeCodeExecutor)
    (behaviors : Nat → RemoteBehavior) (hsync : ex.sync_execution = true) :
    ∀ (pre : List CodeBlock) (es : List RemoteExecution) (rest : List CodeBlock)
      (n : Nat) (outputs : List String) (last : Option String),
    pre.length = es.length →
    (∀ b ∈ pre, supportedCodeBlock b) →
    (∀ i (h : i < es.length), behaviors (n + i) = .done (es.get ⟨i, h⟩) ∧
      pyTruthy (es.get ⟨i, h⟩).error = false) →
    execLoop ex behaviors (pre ++ rest) n outputs last =
      execLoop ex behaviors rest (n + pre.length)
        (outputs ++ es.map blockOutput)
        (es.foldl (fun _ e => some e.id) last)
  | [], es, rest, n, outputs, last, hlen, _, _ => by
      have hes : es = [] := List.eq_nil_of_length_eq_zero hlen.symm
      subst hes
      simp
  | b :: pre, es, rest, n, outputs, last, hlen, hpre, hbeh => by
      match es with
      | [] => simp at hlen
      | e :: es =>
        have h0 := hbeh 0 (by simp)
        simp only [List.get] at h0
        rw [List.cons_append,
          execLoop_cons_done_ok ex behaviors b (pre ++ rest) n outputs last e
            (hpre b (by simp)) (by simpa using h0.1) hsync h0.2]
        have hrec := execLoop_append ex behaviors hsync pre es rest (n + 1)
          (outputs ++ [blockOutput e]) (some e.id)
          (by simpa using hlen)
          (fun x hx => hpre x (by simp [hx]))
          (fun i h => by
            have := hbeh (i + 1) (by simpa using h)
            simpa [Nat.add_assoc, Nat.add_comm 1 i] using this)
        rw [hrec]
        simp [Nat.add_assoc, Nat.add_comm 1 pre.length]

/-- Folding the id-recording update over a list whose last element is `e`
yields `some e.id`. -/
theorem foldl_last_id :
    ∀ (es : List RemoteExecution) (last : Option String) (e : RemoteExecution),
    es.getLast? = some e →
    es.foldl (fun _ x => some x.id) last = some e.id
  | [], _, _, h => by simp at h
  | [x], last, e, h => by
      simp at h
      simp [h]
  | x :: y :: t, last, e, h => by
      rw [List.getLast?_cons_cons] at h
      rw [List.foldl_cons]
      exact foldl_last_id (y :: t) (some x.id) e h

/-- C1 (amended): when `execute_code_blocks` reaches a block whose
normalized language label is not python or javascript — here after a
prefix of supported blocks whose executions completed without error — it
stops immediately (no later block is submitted, the submission count stays
at the prefix length) and returns exit code 1 with the
"Unsupported language: <original label>. Supported languages: python,
javascript" output; the returned error result carries no execution id,
even when one was already recorded from an earlier block's submission. -/
theorem unsupported_language_stops (ex : YepCodeCodeExecutor)
    (tok : CancellationToken) (behaviors : Nat → RemoteBehavior)
    (pre : List CodeBlock) (es : List RemoteExecution) (b : CodeBlock)
    (rest : List CodeBlock)
    (hstart : ex.started = true) (hsync : ex.sync_execution = true)
    (hlen : pre.length = es.length)
    (hpre : ∀ x ∈ pre, supportedCodeBlock x)
    (hbeh : ∀ i (h : i < es.length), behaviors i = .done (es.get ⟨i, h⟩) ∧
      pyTruthy (es.get ⟨i, h⟩).error = false)
    (hb : ¬ supportedCodeBlock b) :
    execute_code_blocks ex (pre ++ b :: rest) tok behaviors =
      (.ok { exit_code := 1, output := unsupportedMsg b.language,
             execution_id := none }, pre.length) := by
  have hne : (pre ++ b :: rest).isEmpty = false := by cases pre <;> rfl
  rw [execute_code_blocks_nonempty ex (pre ++ b :: rest) tok behaviors hstart hne]
  rw [execLoop_append ex behaviors hsync pre es (b :: rest) 0 [] none hlen hpre
    (fun i h => by simpa using hbeh i h)]
  simp only [List.nil_append, Nat.zero_add]
  rw [execLoop_cons_unsupported ex behaviors b rest pre.length
    (es.map blockOutput) (es.foldl (fun _ e => some e.id) none) hb]

/-- C1 counterexample: the first block's submission records execution id
"e1", the second block's language "bash" is unsupported; the returned
error result's execution id is `none` — the recorded "e1" is not
preserved, refuting the preservation part of the claim (the submission
count 1 shows the id had indeed been recorded). -/
theorem unsupported_language_id_dropped_cex :
    execute_code_blocks exStarted
        [{ code := "print(1)", language := "python" },
         { code := "echo hi", language := "bash" }]
        { cancelled := false } behsTwoOk =
      (.ok { exit_code := 1,
             output := "Unsupported language: bash. Supported languages: python, javascript",
             execution_id := none }, 1) :=
  rfl

/-- C1 witness: the amended theorem applied to the counterexample input. -/
theorem unsupported_language_stops_witness :
    execute_code_blocks exStarted
        [{ code := "print(1)", language := "python" },
         { code := "echo hi", language := "bash" }]
        { cancelled := false } behsTwoOk =
      (.ok { exit_code := 1,
             output := "Unsupported language: bash. Supported languages: python, javascript",
             execution_id := none }, 1) ∧ exStarted.started = true :=
  ⟨unsupported_language_stops exStarted { cancelled := false } behsTwoOk
      [{ code := "print(1)", language := "python" }]
      [{ id := "e1", error := none, return_value := some "1", logs := [] }]
      { code := "echo hi", language := "bash" } []
      rfl rfl rfl
      (by intro x hx; simp at hx; subst hx; exact Or.inl rfl)
      (by
        intro i h
        simp only [List.length_singleton] at h
        have h0 : i = 0 := by omega
        subst h0
        exact ⟨rfl, rfl⟩)
      (by decide),
   rfl⟩

/-- C2 (the code at the failing input): with the cancellation token
already cancelled, `execute_code_blocks` still submits both blocks
(submission count 2) and returns the normal aggregated success result; the
outcome is identical to the one with an uncancelled token, so cancellation
never aborts the remaining loop. -/
theorem cancelled_token_does_not_abort :
    execute_code_blocks exStarted twoPyBlocks { cancelled := true } behsTwoOk =
      (.ok { exit_code := 0,
             output := "Execution result:\n1\n===\nExecution result:\n2",
             execution_id := some "e2" }, 2) ∧
    execute_code_blocks exStarted twoPyBlocks { cancelled := true } behsTwoOk =
      execute_code_blocks exStarted twoPyBlocks { cancelled := false } behsTwoOk :=
  ⟨rfl, rfl⟩

/-- C3: an unexpected fault raised while submitting a block (`run_fault`)
or while awaiting its completion (`wait_fault`) is caught at the per-block
boundary and converted into a result with exit code 1, output
"Error executing code: <fault message>" and the last recorded execution
id; and on a started executor `execute_code_blocks` always returns a
result value, never a raised error. -/
theorem transport_fault_converted :
    (∀ (ex : YepCodeCodeExecutor) (behaviors : Nat → RemoteBehavior)
      (b : CodeBlock) (rest : List CodeBlock) (n : Nat) (outputs : List String)
      (last : Option String) (msg : String),
      supportedCodeBlock b → behaviors n = .run_fault msg →
      execLoop ex behaviors (b :: rest) n outputs last =
        ({ exit_code := 1, output := "Error executing code: " ++ msg,
           execution_id := last }, n + 1)) ∧
    (∀ (ex : YepCodeCodeExecutor) (behaviors : Nat → RemoteBehavior)
      (b : CodeBlock) (rest : List CodeBlock) (n : Nat) (outputs : List String)
      (last : Option String) (e : RemoteExecution) (msg : String),
      supportedCodeBlock b → behaviors n = .wait_fault e msg →
      ex.sync_execution = true →
      execLoop ex behaviors (b :: rest) n outputs last =
        ({ exit_code := 1, output := "Error executing code: " ++ msg,
           execution_id := some e.id }, n + 1)) ∧
    (∀ (ex : YepCodeCodeExecutor) (blocks : List CodeBlock)
      (tok : CancellationToken) (behaviors : Nat → RemoteBehavior),
      ex.started = true →
      ∃ r m, execute_code_blocks ex blocks tok behaviors = (.ok r, m)) := by
  refine ⟨?_, ?_, ?_⟩
  · intro ex behaviors b rest n outputs last msg hsup hb
    exact execLoop_cons_run_fault ex behaviors b rest n outputs last msg hsup hb
  · intro ex behaviors b rest n outputs last e msg hsup hb hsync
    exact execLoop_cons_wait_fault ex behaviors b rest n outputs last e msg
      hsup hb hsync
  · intro ex blocks tok behaviors h
    by_cases hb : blocks.isEmpty
    · refine ⟨{ exit_code := 0, output := "", execution_id := none }, 0, ?_⟩
      simp [execute_code_blocks, h, hb]
    · refine ⟨(execLoop ex behaviors blocks 0 [] none).1,
        (execLoop ex behaviors blocks 0 [] none).2, ?_⟩
      simp [execute_code_blocks, h, hb]

/-- C3 witness: a submission fault with message "Network error" on the
first block, converted with no previously recorded execution id. -/
theorem transport_fault_converted_witness :
    execLoop exStarted (fun _ => .run_fault "Network error")
        [{ code := "print(1)", language := "python" }] 0 [] none =
      ({ exit_code := 1, output := "Error executing code: Network error",
         execution_id := none }, 1) :=
  transport_fault_converted.1 exStarted (fun _ => .run_fault "Network error")
    { code := "print(1)", language := "python" } [] 0 [] none "Network error"
    (by decide) rfl

/-- C4: in sync mode, each successfully completed block contributes
`blockOutput` — "Execution result:\n<returnValue>" when the return value
is truthy, nothing otherwise, followed by the logs suffix — and when every
block completes without error, the result is exit code 0, the per-block
outputs joined by "\n===\n", and the last execution's id. -/
theorem sync_success_aggregates (ex : YepCodeCodeExecutor)
    (tok : CancellationToken) (behaviors : Nat → RemoteBehavior)
    (blocks : List CodeBlock) (es : List RemoteExecution)
    (e_last : RemoteExecution)
    (hstart : ex.started = true) (hsync : ex.sync_execution = true)
    (hlen : blocks.length = es.length)
    (hsup : ∀ b ∈ blocks, supportedCodeBlock b)
    (hbeh : ∀ i (h : i < es.length), behaviors i = .done (es.get ⟨i, h⟩) ∧
      pyTruthy (es.get ⟨i, h⟩).error = false)
    (hlast : es.getLast? = some e_last) :
    execute_code_blocks ex blocks tok behaviors =
      (.ok { exit_code := 0,
             output := String.intercalate "\n===\n" (es.map blockOutput),
             execution_id := some e_last.id }, blocks.length) := by
  have hesne : es ≠ [] := by
    intro h
    subst h
    simp at hlast
  have hbne : blocks.isEmpty = false := by
    cases blocks with
    | nil => exact absurd (List.eq_nil_of_length_eq_zero hlen.symm) hesne
    | cons x xs => rfl
  rw [execute_code_blocks_nonempty ex blocks tok behaviors hstart hbne]
  have happ := execLoop_append ex behaviors hsync blocks es [] 0 [] none hlen
    hsup (fun i h => by simpa using hbeh i h)
  rw [List.append_nil] at happ
  rw [happ, execLoop_nil, foldl_last_id es none e_last hlast]
  simp

/-- C4 witness: one python block completing with return value "1" and one
log line. -/
theorem sync_success_aggregates_witness :
    execute_code_blocks exStarted
        [{ code := "print(1)", language := "python" }] { cancelled := false }
        (fun _ => .done { id := "e1", error := none, return_value := some "1",
                          logs := [{ timestamp := "t1", level := "INFO",
                                     message := "hello" }] }) =
      (.ok { exit_code := 0,
             output := "Execution result:\n1\n\nExecution logs:\nt1 - INFO: hello",
             execution_id := some "e1" }, 1) :=
  sync_success_aggregates exStarted { cancelled := false }
    (fun _ => .done { id := "e1", error := none, return_value := some "1",
                      logs := [{ timestamp := "t1", level := "INFO",
                                 message := "hello" }] })
    [{ code := "print(1)", language := "python" }]
    [{ id := "e1", error := none, return_value := some "1",
       logs := [{ timestamp := "t1", level := "INFO", message := "hello" }] }]
    { id := "e1", error := none, return_value := some "1",
      logs := [{ timestamp := "t1", level := "INFO", message := "hello" }] }
    rfl rfl rfl
    (by intro x hx; simp at hx; subst hx; exact Or.inl rfl)
    (by
      intro i h
      simp only [List.length_singleton] at h
      have h0 : i = 0 := by omega
      subst h0
      exact ⟨rfl, rfl⟩)
    rfl

/-- C5: in sync mode, when a block's completed execution reports a
non-empty error, `execute_code_blocks` stops immediately (no later block
is submitted) and returns exit code 1 with output
"Execution failed with error:\n<error>" followed by the logs suffix, and
that execution's id. -/
theorem sync_error_stops (ex : YepCodeCodeExecutor) (tok : CancellationToken)
    (behaviors : Nat → RemoteBehavior) (pre : List CodeBlock)
    (es : List RemoteExecution) (b : CodeBlock) (rest : List CodeBlock)
    (e : RemoteExecution) (err : String)
    (hstart : ex.started = true) (hsync : ex.sync_execution = true)
    (hlen : pre.length = es.length)
    (hpre : ∀ x ∈ pre, supportedCodeBlock x)
    (hbeh : ∀ i (h : i < es.length), behaviors i = .done (es.get ⟨i, h⟩) ∧
      pyTruthy (es.get ⟨i, h⟩).error = false)
    (hsupb : supportedCodeBlock b)
    (hb : behaviors pre.length = .done e)
    (herr : e.error = some err) (herrne : err ≠ "") :
    execute_code_blocks ex (pre ++ b :: rest) tok behaviors =
      (.ok { exit_code := 1,
             output := "Execution failed with error:\n" ++ err ++
               (if e.logs.isEmpty then ""
                else "\n\nExecution logs:\n" ++ String.intercalate "\n"
                  (e.logs.map (fun l =>
                    l.timestamp ++ " - " ++ l.level ++ ": " ++ l.message))),
             execution_id := some e.id }, pre.length + 1) := by
  have htr : pyTruthy e.error = true := by
    rw [herr]
    simp [pyTruthy, herrne]
  have hne : (pre ++ b :: rest).isEmpty = false := by cases pre <;> rfl
  rw [execute_code_blocks_nonempty ex (pre ++ b :: rest) tok behaviors hstart hne]
  rw [execLoop_append ex behaviors hsync pre es (b :: rest) 0 [] none hlen hpre
    (fun i h => by simpa using hbeh i h)]
  simp only [List.nil_append, Nat.zero_add]
  rw [execLoop_cons_done_error ex behaviors b rest pre.length
    (es.map blockOutput) (es.foldl (fun _ x => some x.id) none) e hsupb hb
    hsync htr]
  rw [herr]
  rfl

/-- C5 witness: a single python block whose execution fails with error
"boom" and one log line. -/
theorem sync_error_stops_witness :
    execute_code_blocks exStarted
        [{ code := "print(1/0)", language := "python" }] { cancelled := false }
        (fun _ => .done { id := "e9", error := some "boom",
                          return_value := none,
                          logs := [{ timestamp := "t1", level := "ERROR",
                                     message := "trace" }] }) =
      (.ok { exit_code := 1,
             output := "Execution failed with error:\nboom\n\nExecution logs:\nt1 - ERROR: trace",
             execution_id := some "e9" }, 1) :=
  sync_error_stops exStarted { cancelled := false }
    (fun _ => .done { id := "e9", error := some "boom", return_value := none,
                      logs := [{ timestamp := "t1", level := "ERROR",
                                 message := "trace" }] })
    [] [] { code := "print(1/0)", language := "python" } []
    { id := "e9", error := some "boom", return_value := none,
      logs := [{ timestamp := "t1", level := "ERROR", message := "trace" }] }
    "boom" rfl rfl rfl
    (by intro x hx; simp at hx)
    (by intro i h; simp at h)
    (by decide) rfl rfl (by decide)

/-- C6: construction fails with a validation error for every timeout < 1;
otherwise the API token is resolved by taking the explicit parameter when
given (non-empty) and the environment value otherwise; it fails with a
validation error when both are absent; with a valid timeout and an
available token it succeeds with the resolved token stored. -/
theorem construction_validation :
    (∀ (tok : Option String) (r s : Bool) (env : Option String) (t : Int),
      t < 1 → init tok t r s env = .error timeoutErrorMsg) ∧
    (∀ (a : String) (r s : Bool) (env : Option String) (t : Int),
      1 ≤ t → a ≠ "" →
      init (some a) t r s env =
        .ok { api_token := a, timeout := t, remove_on_done := r,
              sync_execution := s, started := false, runner := none }) ∧
    (∀ (e : String) (r s : Bool) (t : Int),
      1 ≤ t → e ≠ "" →
      init none t r s (some e) =
        .ok { api_token := e, timeout := t, remove_on_done := r,
              sync_execution := s, started := false, runner := none }) ∧
    (∀ (r s : Bool) (t : Int), 1 ≤ t →
      init none t r s none = .error tokenErrorMsg) :=
  ⟨fun tok r s env t ht => init_timeout_error tok t r s env ht,
   fun a r s env t ht ha => init_ok_explicit a t r s env ht ha,
   fun e r s t ht he => init_ok_env none e t r s ht rfl he,
   fun r s t ht => init_token_error none none t r s ht rfl rfl⟩

/-- C6 witness: concrete instances of all four parts of
`construction_validation`. -/
theorem construction_validation_witness :
    init (some "k") 0 false true none = .error timeoutErrorMsg ∧
    init (some "k") 60 false true none =
      .ok { api_token := "k", timeout := 60, remove_on_done := false,
            sync_execution := true, started := false, runner := none } ∧
    init none 60 false true (some "envtok") =
      .ok { api_token := "envtok", timeout := 60, remove_on_done := false,
            sync_execution := true, started := false, runner := none } ∧
    init none 60 false true none = .error tokenErrorMsg :=
  ⟨construction_validation.1 (some "k") false true none 0 (by norm_num),
   construction_validation.2.1 "k" false true none 60 (by norm_num) (by decide),
   construction_validation.2.2.1 "envtok" false true 60 (by norm_num) (by decide),
   construction_validation.2.2.2 false true 60 (by norm_num)⟩

/-- C7: `execute_code_blocks` on an executor whose lifecycle state is not
started raises the "not started" lifecycle error instead of returning a
result, and makes no remote submission. -/
theorem not_started_raises (ex : YepCodeCodeExecutor)
    (blocks : List CodeBlock) (tok : CancellationToken)
    (behaviors : Nat → RemoteBehavior) (h : ex.started = false) :
    execute_code_blocks ex blocks tok behaviors =
      (.error "Executor must be started before executing code blocks.", 0) := by
  simp [execute_code_blocks, h]

/-- C7 witness: a concrete non-started executor with one python block. -/
theorem not_started_raises_witness :
    execute_code_blocks exStopped twoPyBlocks { cancelled := false } behsTwoOk =
      (.error "Executor must be started before executing code blocks.", 0) :=
  not_started_raises exStopped twoPyBlocks { cancelled := false } behsTwoOk rfl

/-- C8: constructing an executor from a serialized configuration record
and re-serializing it yields a record field-for-field equal to the
original; the serialization reads none of the runtime state (lifecycle
flag, client handle). -/
theorem config_round_trip (c : YepCodeCodeExecutorConfig)
    (env : Option String) (a : String)
    (hc : c.api_token = some a) (ha : a ≠ "") (ht : 1 ≤ c.timeout) :
    (∃ ex, from_config c env = .ok ex ∧ to_config ex = c) ∧
    (∀ (ex : YepCodeCodeExecutor) (b : Bool) (r : Option Unit),
      to_config { ex with started := b, runner := r } = to_config ex) := by
  constructor
  · refine ⟨{ api_token := a, timeout := c.timeout,
              remove_on_done := c.remove_on_done,
              sync_execution := c.sync_execution,
              started := false, runner := none }, ?_, ?_⟩
    · unfold from_config
      rw [hc]
      exact init_ok_explicit a c.timeout c.remove_on_done c.sync_execution env ht ha
    · cases c
      simp only [YepCodeCodeExecutorConfig.mk.injEq] at hc ⊢
      simp [to_config, hc.symm]
  · intro ex b r
    rfl

/-- C8 witness: the round trip at a concrete configuration record. -/
theorem config_round_trip_witness :
    ∃ ex, from_config { api_token := some "k", timeout := 60,
                        remove_on_done := false, sync_execution := true }
            none = .ok ex ∧
      to_config ex = { api_token := some "k", timeout := 60,
                       remove_on_done := false, sync_execution := true } :=
  (config_round_trip
    { api_token := some "k", timeout := 60,
      remove_on_done := false, sync_execution := true }
    none "k" rfl (by decide) (by norm_num)).1

/-- C9: for the empty list of code blocks, `execute_code_blocks` on a
started executor returns exit code 0, empty output and no execution id,
with zero remote submissions. -/
theorem empty_blocks_immediate (ex : YepCodeCodeExecutor)
    (tok : CancellationToken) (behaviors : Nat → RemoteBehavior)
    (h : ex.started = true) :
    execute_code_blocks ex [] tok behaviors =
      (.ok { exit_code := 0, output := "", execution_id := none }, 0) := by
  simp [execute_code_blocks, h]

/-- C9 witness: the empty input on the concrete started executor. -/
theorem empty_blocks_immediate_witness :
    execute_code_blocks exStarted [] { cancelled := false } behsTwoOk =
      (.ok { exit_code := 0, output := "", execution_id := none }, 0) :=
  empty_blocks_immediate exStarted { cancelled := false } behsTwoOk rfl

/-- C10: an explicit empty-string api_token is treated as absent — the
environment variable wins when it holds a non-empty value, and when it is
unset or empty as well, construction fails with the missing-token
validation error. -/
theorem empty_token_falls_back (t : Int) (r s : Bool) (e : String)
    (ht : 1 ≤ t) (he : e ≠ "") :
    init (some "") t r s (some e) =
      .ok { api_token := e, timeout := t, remove_on_done := r,
            sync_execution := s, started := false, runner := none } ∧
    init (some "") t r s none = .error tokenErrorMsg ∧
    init (some "") t r s (some "") = .error tokenErrorMsg :=
  ⟨init_ok_env (some "") e t r s ht rfl he,
   init_token_error (some "") none t r s ht rfl rfl,
   init_token_error (some "") (some "") t r s ht rfl rfl⟩

/-- C10 witness: concrete fallback and failure instances. -/
theorem empty_token_falls_back_witness :
    init (some "") 60 false true (some "envtok") =
      .ok { api_token := "envtok", timeout := 60, remove_on_done := false,
            sync_execution := true, started := false, runner := none } ∧
    init (some "") 60 false true none = .error tokenErrorMsg ∧
    init (some "") 60 false true (some "") = .error tokenErrorMsg :=
  empty_token_falls_back 60 false true "envtok" (by norm_num) (by decide)

end YepCode
